import Mathlib

/-!
# Verification of the Tavern REST stage engine

A shallow embedding of `src/tavern/_plugins/rest/request.py` and
`src/tavern/_plugins/rest/response.py`, together with theorems settling the
claims about request assembly, cookie negotiation, redirect policy, session
cookie substitution, and response verification.

Python dictionaries are modelled as association lists with Python insertion
and update semantics (`dictInsert` updates in place when the key exists,
appends otherwise).  External collaborators outside `src/` (the structural
match primitive, `guess_filespec`, variable formatting, the transport layer)
are modelled as explicit function parameters, so every theorem quantifies
over their behaviour.
-/

namespace Tavern

/-- A Python `dict` with `String` keys, as an association list in insertion
order.  Dictionaries built by the engine always have distinct keys. -/
abbrev Dict (α : Type) := List (String × α)

/-- `d[k]` lookup: first binding of `k` in the association list. -/
def dictLookup (d : Dict α) (k : String) : Option α :=
  match d with
  | [] => none
  | (k2, v) :: rest => if k2 = k then some v else dictLookup rest k

/-- `d.keys()` in order. -/
def dictKeys (d : Dict α) : List String := d.map Prod.fst

/-- Python `d[k] = v`: update the existing binding in place, or append a new
binding at the end. -/
def dictInsert (d : Dict α) (k : String) (v : α) : Dict α :=
  if (dictLookup d k).isSome then
    d.map (fun p => if p.1 = k then (k, v) else p)
  else d ++ [(k, v)]

/-- Build a dict from a list of pairs, later assignments overriding earlier
ones (Python dict-comprehension semantics). -/
def dictOfList (l : List (String × α)) : Dict α :=
  l.foldl (fun d p => dictInsert d p.1 p.2) []

/-- Python `d.update(e)`. -/
def dictUpdate (d e : Dict α) : Dict α :=
  e.foldl (fun d p => dictInsert d p.1 p.2) d

/-- `tavern._core.dict_util.deep_dict_merge` restricted to the flat
string-valued dictionaries the cookie code merges (outside `src/`; modelled
from the spec: overrides are merged in, override values taking precedence). -/
def deep_dict_merge (initial new : Dict String) : Dict String :=
  dictUpdate initial new

/-- `{k.lower(): v for k, v in d.items()}`. -/
def lowerKeys (d : Dict α) : Dict α :=
  dictOfList (d.map (fun p => (p.1.toLower, p.2)))

/-- Python truthiness of an optional string (`None` and `""` are falsy). -/
def optTruthy : Option String → Bool
  | none => false
  | some s => s ≠ ""

/-- A loosely-typed Python value, as they appear in expected blocks and
parsed JSON bodies.  `null` is Python `None`. -/
inductive PyVal
  | null
  | int (n : Int)
  | str (s : String)
  | list (xs : List PyVal)
  | dict (d : List (String × PyVal))

/-- Python truthiness of a `PyVal`. -/
def pyTruthy : PyVal → Bool
  | .null => false
  | .int n => n ≠ 0
  | .str s => s ≠ ""
  | .list xs => !xs.isEmpty
  | .dict d => !d.isEmpty

/-- The Python exceptions `int(...)` can raise. -/
inductive PyErr
  | typeError
  | valueError
deriving DecidableEq

/-- Python `int(x)` on the values we model: ints convert, numeric strings
convert, non-numeric strings raise `ValueError`, everything else (None,
lists, mappings) raises `TypeError`. -/
def pyIntConv : PyVal → Except PyErr Int
  | .int n => .ok n
  | .str s =>
    match s.toInt? with
    | some n => .ok n
    | none => .error .valueError
  | _ => .error .typeError

/-- One element of a stage `cookies` directive: either a verbatim cookie
name, or a name→value override mapping. -/
inductive CookieItem
  | name (n : String)
  | override (m : Dict String)
deriving DecidableEq

/-- One accumulated verification error record, with the data its formatted
message embeds as payloads.  Errors produced by the external structural match
primitive and external validator functions are carried opaquely. -/
inductive VerifyError
  /-- The `_check_status_code` mismatch error.  `bodyInMessage = some b`
  means the message embeds `json.dumps` of `b` (the parsed body, `null` when
  parsing failed); `none` means the body is omitted from the message. -/
  | statusMismatch (actual : Int) (expected : PyVal) (bodyInMessage : Option PyVal)
  /-- An error appended by the structural match primitive
  (`recurse_check_key_match`, external collaborator). -/
  | blockErr (blockname : String) (detail : String)
  /-- "Wanted to save ..., but there was no redirect url in response". -/
  | missingRedirectUrl (wanted : PyVal)
  /-- An error appended by `_maybe_run_validate_functions` (external). -/
  | validateFnErr (detail : String)
  /-- An error appended by a save block (external collaborator). -/
  | saveErr (detail : String)
  /-- "No cookie named ... in response". -/
  | missingResponseCookie (name : String)

/-- The exceptions the request/response engine raises (`tavern._core.exceptions`
classes, with the data their messages embed as payloads). -/
inductive TavernError
  /-- `BadSchemaError` from the body mutual-exclusivity check; the payload is
  `in_request`, joined with " and " into the message. -/
  | badSchemaBody (offending : List String)
  /-- `BadSchemaError` for an unknown HTTP method. -/
  | badSchemaMethod (method : String)
  /-- `BadSchemaError("Invalid code")` from `RestResponse.__init__`. -/
  | badSchemaCode
  /-- `MissingCookieError`; the message embeds the verbatim names asked for
  and the available session cookies. -/
  | missingCookie (asked : List String) (existing : Dict String)
  /-- `DuplicateCookieError` when the merged override maps lose entries. -/
  | duplicateCookieOverride
  /-- `DuplicateCookieError` when a verbatim name is also overridden. -/
  | duplicateCookieReuse (overwritten : List String) (fromExtra : Dict String)
  /-- `MisplacedExtBlockException` for a truthy `$ext` key inside a block. -/
  | misplacedExt (blockname : String)
  /-- `KeyError` escaping `add_request_args` for a missing required key. -/
  | pyKeyError
  /-- A Python exception (e.g. `ValueError`) escaping uncaught. -/
  | uncaughtPython (e : PyErr)
  /-- `RestRequestException` wrapping a transport failure in `run`. -/
  | restRequestException
  /-- `TestFailError` carrying the accumulated verification errors. -/
  | testFail (errors : List VerifyError)

/-! ## Request side: data model (`request.py`) -/

/-- The persistent session cookie jar (`requests.Session.cookies`), as the
name→value dictionary `dict_from_cookiejar` extracts from it. -/
abbrev CookieJar := Dict String

/-- The stage specification dictionary `rspec` handed to `RestRequest`.
Fields are the keys the `expected` set in `RestRequest.__init__` allows;
`Option`/`Bool` encode key presence.  Keys that no verified claim touches
(`params`, `auth`, `cert`, `timeout`, `verify`, `stream`) are omitted: the
source only copies them through to the transport arguments. -/
structure RSpec where
  method : Option String := none
  url : Option String := none
  headers : Option (Dict String) := none
  /-- presence of the raw-form `data` key -/
  data : Bool := false
  /-- presence of the structured-body `json` key -/
  json : Bool := false
  /-- presence of the multipart `files` key -/
  files : Bool := false
  file_body : Option String := none
  cookies : Option (List CookieItem) := none
  follow_redirects : Option Bool := none
  clear_session_cookies : Bool := false
deriving DecidableEq

/-- The slice of `TestConfig` the verified request functions read. -/
structure TestConfig where
  follow_redirects : Option Bool := none
deriving DecidableEq

/-- The result of `guess_filespec` (external collaborator,
`tavern._plugins.rest.files`): a tuple of length 2, 3 or 4; index 2 is an
inferred content type, index 3 an inferred content-encoding header dict. -/
inductive FileSpecGuess
  | plain
  | withType (ct : String)
  | withTypeAndEncoding (ct : String) (enc : Dict String)
deriving DecidableEq

/-- The canonical transport arguments `get_request_args` assembles for
`requests.Session.request`.  Body payloads are tracked as presence flags;
their contents are opaque to every verified claim. -/
structure RequestArgs where
  method : String
  url : String
  headers : Dict String
  hasJson : Bool := false
  hasData : Bool := false
  hasFiles : Bool := false
  file_body : Option String := none
  cookies : Option (Dict String) := none
  allow_redirects : Bool := false
deriving DecidableEq

/-- What `RestRequest.__init__` captures for the deferred
`prepared_request` closure. -/
structure PreparedStage where
  args : RequestArgs
  file_body : Option String
deriving DecidableEq

/-! ## Request side: operations (`request.py`) -/

/-- `content_keys` from `get_request_args` (line 63). -/
def content_keys : List String := ["data", "json", "files", "file_body"]

/-- Whether the stage spec dictionary contains a given body key. -/
def hasContentKey (r : RSpec) : String → Bool
  | "data" => r.data
  | "json" => r.json
  | "files" => r.files
  | "file_body" => r.file_body.isSome
  | _ => false

/-- `in_request = [c for c in content_keys if c in rspec]` (line 65). -/
def presentContentKeys (r : RSpec) : List String :=
  content_keys.filter (hasContentKey r)

/-- Lines 56-61 of `get_request_args`: default method GET and empty headers,
written into `rspec` itself. -/
def defaultMethodHeaders (r : RSpec) : RSpec :=
  let r1 := if r.method.isNone then { r with method := some "GET" } else r
  if r1.headers.isNone then { r1 with headers := some [] } else r1

/-- `tavern._core.general.valid_http_methods` (outside `src/`).
Modelled from the spec: the recognized standard HTTP verb set. -/
def valid_http_methods : List String :=
  ["GET", "PUT", "POST", "DELETE", "PATCH", "OPTIONS", "HEAD", "CONNECT", "TRACE"]

/-- Lines 106-149 of `get_request_args`: file-body content-type/encoding
inference, applied to the formatted spec `fspec`.  `contentHeader` and
`encodingHeader` are the user-supplied header values read at lines 82-83. -/
def applyFileBodyGuess (guess : String → FileSpecGuess)
    (contentHeader encodingHeader : Option String) (f : RSpec) : RSpec :=
  match f.file_body with
  | none => f
  | some filename =>
    -- `if filename:` — Python truthiness of the string
    if filename = "" then f
    else
      match guess filename with
      | .plain => f
      | .withType ct =>
        if optTruthy contentHeader then f
        else { f with headers := some (dictInsert (f.headers.getD []) "content-type" ct) }
      | .withTypeAndEncoding ct enc =>
        let f1 :=
          if optTruthy contentHeader then f
          else { f with headers := some (dictInsert (f.headers.getD []) "content-type" ct) }
        if optTruthy encodingHeader then f1
        else { f1 with headers := some (dictUpdate (f1.headers.getD []) enc) }

/-- `get_request_args(rspec, test_block_config)` (lines 38-221).

Returns the mutated `rspec` together with the assembled transport arguments
or the raised exception.  `format_keys` (variable substitution, outside
`src/`) is modelled as the identity copy `fspec := rspec`, so mutations of
`fspec` do not write back into `rspec`, exactly as in the source.
`in_request` is an in-order subsequence of `content_keys` without
duplicates, so the `set(in_request) != set(("data", "files"))` test is the
list equality with `["data", "files"]`. -/
def get_request_args (guess : String → FileSpecGuess) (_cfg : TestConfig)
    (rspec : RSpec) : RSpec × Except TavernError RequestArgs :=
  let r := defaultMethodHeaders rspec
  let in_request := presentContentKeys r
  if in_request.length > 1 ∧ in_request ≠ ["data", "files"] then
    (r, .error (.badSchemaBody in_request))
  else
    let normalised_headers := lowerKeys (r.headers.getD [])
    let content_header := dictLookup normalised_headers "content-type"
    let encoding_header := dictLookup normalised_headers "content-encoding"
    let dropped := normalised_headers.filter (fun p => p.1.toLower ≠ "content-type")
    let r :=
      if r.files ∧ optTruthy content_header then { r with headers := some dropped }
      else r
    let f := r  -- fspec = format_keys(rspec, ...): identity model, fresh copy
    if (f.method.getD "") ∉ valid_http_methods then
      (r, .error (.badSchemaMethod (f.method.getD "")))
    else
      let f := applyFileBodyGuess guess content_header encoding_header f
      -- add_request_args: "method" and "url" are required; a missing "url"
      -- re-raises the KeyError
      match f.url with
      | none => (r, .error .pyKeyError)
      | some url =>
        (r, .ok {
          method := f.method.getD "",
          url := url,
          headers := f.headers.getD [],
          hasJson := f.json,
          hasData := f.data,
          hasFiles := f.files,
          file_body := f.file_body })

/-- `_check_allow_redirects(rspec, test_block_config)` (lines 246-278):
default `False`, overridden by the global setting, overridden by the
per-stage key, which is popped from `rspec`. -/
def check_allow_redirects (rspec : RSpec) (cfg : TestConfig) : RSpec × Bool :=
  let allow0 := false
  let allow1 :=
    match cfg.follow_redirects with
    | some g => g
    | none => allow0
  let test_follow := rspec.follow_redirects
  let rspec2 := { rspec with follow_redirects := none }
  match test_follow with
  | some t => (rspec2, t)
  | none => (rspec2, allow1)

/-- The verbatim cookie names of a directive (the `expected` half of the
`partition` at line 316, in order). -/
def verbatimNames (items : List CookieItem) : List String :=
  items.filterMap fun
    | .name n => some n
    | .override _ => none

/-- The override mappings of a directive (the `extra` half of the
`partition` at line 316, in order). -/
def overrideMaps (items : List CookieItem) : List (Dict String) :=
  items.filterMap fun
    | .override m => some m
    | .name _ => none

/-- `from_extra` (line 327): all override mappings merged into one dict. -/
def mergedOverrides (items : List CookieItem) : Dict String :=
  dictOfList (overrideMaps items).flatten

/-- `_read_expected_cookies(session, rspec, test_block_config)`
(lines 281-345).  `format_keys` on the directive is the identity model.
`.ok none` is the send-all-ambient-cookies sentinel, `.ok (some [])` the
send-no-cookies sentinel. -/
def read_expected_cookies (jar : CookieJar) (directive : Option (List CookieItem)) :
    Except TavernError (Option (Dict String)) :=
  let existing_cookies := jar
  match directive with
  | none => .ok none
  | some items =>
    if items.isEmpty then .ok (some [])
    else
      let expected := verbatimNames items
      let extra := overrideMaps items
      -- missing = set(expected) - set(existing_cookies.keys())
      if expected.any (fun n => !(dictLookup existing_cookies n).isSome) then
        .error (.missingCookie expected existing_cookies)
      else
        let from_extra := dictOfList extra.flatten
        if extra.length ≠ from_extra.length then
          .error .duplicateCookieOverride
        else
          let overwritten := expected.filter (fun n => (dictLookup from_extra n).isSome)
          if overwritten ≠ [] then
            .error (.duplicateCookieReuse overwritten from_extra)
          else
            -- every name in expected passed the missing check, so the
            -- `.getD ""` default is never read
            let from_cookiejar :=
              dictOfList (expected.map fun c => (c, (dictLookup existing_cookies c).getD ""))
            .ok (some (deep_dict_merge from_cookiejar from_extra))

/-- `_set_cookies_for_request(session, request_args)` (lines 224-243) as a
context manager wrapped around `body`.  `body` returns the jar it leaves in
the session plus `some` response, or `none` when it raises.  The generator
has no try/finally, so when the body raises, the post-`yield` restoration
does not run and the substituted jar is left in place; on normal completion
the saved dictionary is written back. -/
def set_cookies_for_request (hasCookiesKey : Bool) (jar : CookieJar)
    (body : CookieJar → CookieJar × Option α) : CookieJar × Option α :=
  if hasCookiesKey then
    let old_cookies := jar
    -- session.cookies = cookiejar_from_dict(\x7b\x7d)
    match body [] with
    | (_, some r) =>
      -- session.cookies = cookiejar_from_dict(old_cookies)
      (old_cookies, some r)
    | (jarLeft, none) => (jarLeft, none)
  else body jar

/-- `RestRequest.__init__(session, rspec, test_block_config)`
(lines 370-464), up to the point where the `prepared_request` closure is
stored.  `clearSess` models `session.cookies.clear_session_cookies()`
(external requests-library operation).  `check_expected_keys` cannot raise
here because `RSpec` has exactly the allowed keys; `update_from_ext` is the
identity in the absence of `$ext` request values (external-function
resolution service).  Returns the final session jar and mutated `rspec`
alongside the prepared stage or the raised exception. -/
def restRequest_init (guess : String → FileSpecGuess)
    (clearSess : CookieJar → CookieJar) (cfg : TestConfig)
    (jar : CookieJar) (rspec : RSpec) :
    (CookieJar × RSpec) × Except TavernError PreparedStage :=
  let jar1 := if rspec.clear_session_cookies then clearSess jar else jar
  let r1 := { rspec with clear_session_cookies := false }
  match get_request_args guess cfg r1 with
  | (r2, .error e) => ((jar1, r2), .error e)
  | (r2, .ok args0) =>
    -- file_body is popped from the request args as soon as possible
    let file_body := args0.file_body
    let args1 := { args0 with file_body := none }
    match read_expected_cookies jar1 r2.cookies with
    | .error e => ((jar1, r2), .error e)
    | .ok expected_cookies =>
      let args2 :=
        match expected_cookies with
        | some c => { args1 with cookies := some c }
        | none => args1
      let (r3, allow) := check_allow_redirects r2 cfg
      let args3 := { args2 with allow_redirects := allow }
      ((jar1, r3), .ok { args := args3, file_body := file_body })

/-- The raw HTTP response, as `RestResponse.verify` consumes it. -/
structure HttpResponse where
  status_code : Int
  headers : Dict String
  /-- `response.json()`: `none` models the `ValueError` branch (body not
  parseable as JSON). -/
  bodyJson : Option PyVal := none
  /-- names of the cookies set by the response (`response.cookies`). -/
  cookies : List String := []

/-- The transport call `session.request(**self._request_args)` together
with the file-handling and header-stringification the `prepared_request`
closure performs around it (external collaborators: `requests`,
`get_file_arguments`, `open`).  Takes the prepared stage and the session
jar the call starts from, and returns the jar the call leaves in the
session plus `some` response, or `none` when it raises. -/
abbrev Transport := PreparedStage → CookieJar → CookieJar × Option HttpResponse

/-- The `prepared_request` closure built at lines 439-462: the transport
call wrapped in `_set_cookies_for_request` (entered via the `ExitStack`).
Cookie substitution is active exactly when the `cookies` key was set in the
request args. -/
def runPrepared (transport : Transport) (stage : PreparedStage)
    (jar : CookieJar) : CookieJar × Option HttpResponse :=
  set_cookies_for_request stage.args.cookies.isSome jar (transport stage)

/-- One stage end to end on the REST request plugin: `RestRequest.__init__`
followed by `RestRequest.run`.  A transport failure is wrapped into
`RestRequestException` (lines 478-482). -/
def runStage (guess : String → FileSpecGuess) (clearSess : CookieJar → CookieJar)
    (cfg : TestConfig) (transport : Transport)
    (jar : CookieJar) (rspec : RSpec) : CookieJar × Except TavernError HttpResponse :=
  match restRequest_init guess clearSess cfg jar rspec with
  | ((jar1, _), .error e) => (jar1, .error e)
  | ((jar1, _), .ok stage) =>
    match runPrepared transport stage jar1 with
    | (jar2, some resp) => (jar2, .ok resp)
    | (jar2, none) => (jar2, .error .restRequestException)

/-! ## Response side: data model (`response.py`) -/

/-- The merged expected block held by a constructed `RestResponse`
(`self.expected`), restricted to the keys `verify` reads. -/
structure ExpectedResponse where
  /-- `self.expected["status_code"]` after the defaults merge. -/
  status_code : PyVal := .int 200
  /-- `self.expected["json"]`, `none` when the key is absent. -/
  jsonBlock : Option PyVal := none
  /-- `self.expected["headers"]`. -/
  headersBlock : Option PyVal := none
  /-- `self.expected["redirect_query_params"]`. -/
  redirectQPBlock : Option PyVal := none
  /-- `self.expected["save"]["redirect_query_params"]`, `none` when absent. -/
  saveRedirectQP : Option PyVal := none
  /-- `self.expected["cookies"]`, defaulting to the empty list. -/
  cookies : List String := []

/-- The expected block as authored in the test file, before the
`deep_dict_merge` with the `status_code: 200` default. -/
structure ExpectedIn where
  status_code : Option PyVal := none
  jsonBlock : Option PyVal := none
  headersBlock : Option PyVal := none
  redirectQPBlock : Option PyVal := none
  saveRedirectQP : Option PyVal := none
  cookies : List String := []

/-- The external collaborators `RestResponse.verify` drives, modelled as
oracles so every theorem quantifies over their behaviour.  Everything here
lives outside `src/` (`BaseResponse` in `tavern/response.py`,
`tavern._core`, `urllib`). -/
structure VerifyCollabs where
  /-- `recurse_check_key_match(expected, actual, blockname, strictness)`:
  the errors the structural match primitive appends for one block.  The
  per-block strictness resolution is absorbed into the oracle. -/
  matchPrim : String → Option PyVal → PyVal → List VerifyError
  /-- errors appended by `_maybe_run_validate_functions` (external
  `$ext` validator functions). -/
  validateFnErrs : List VerifyError := []
  /-- errors appended while evaluating the save blocks. -/
  saveErrs : List VerifyError := []
  /-- `maybe_get_save_values_from_save_block(blockname, block)`. -/
  saveFromBlock : String → PyVal → Dict PyVal := fun _ _ => []
  /-- `maybe_get_save_values_from_ext(response, expected)`. -/
  saveFromExt : Dict PyVal := []
  /-- `urlparse` + `parse_qs` + first-value projection applied to the
  redirect location URL (lines 111-113, Python stdlib). -/
  parseLocationQP : String → Dict String := fun _ => []

/-! ## Response side: operations (`response.py`) -/

/-- The Python status codes dict `requests.status_codes._codes` only feeds
a warning in `check_code`; it never affects the result, so the recognized
set does not appear in the model. -/
def check_codes_list : List PyVal → Except PyErr Unit
  | [] => .ok ()
  | x :: rest =>
    match pyIntConv x with
    | .ok _ => check_codes_list rest
    | .error e => .error e

/-- The `try` block of `RestResponse.__init__` (lines 51-56): `int(code)`
on the expected code, or on each element when it is a list.  The `in
_codes` membership only logs a warning and is dropped. -/
def check_code_loop : PyVal → Except PyErr Unit
  | .list xs => check_codes_list xs
  | v =>
    match pyIntConv v with
    | .ok _ => .ok ()
    | .error e => .error e

/-- `deep_dict_merge(\x7b"status_code": 200\x7d, expected)` restricted to
the status code: the authored value when present, else the default. -/
def mergedStatusCode (sc : Option PyVal) : PyVal :=
  sc.getD (.int 200)

/-- `RestResponse.__init__` (lines 39-58): merge the default status code,
then validate it; a `TypeError` from `int(...)` becomes
`BadSchemaError("Invalid code")`, a `ValueError` escapes uncaught. -/
def restResponse_init (expected : ExpectedIn) : Except TavernError ExpectedResponse :=
  let code := mergedStatusCode expected.status_code
  match check_code_loop code with
  | .ok _ => .ok {
      status_code := code,
      jsonBlock := expected.jsonBlock,
      headersBlock := expected.headersBlock,
      redirectQPBlock := expected.redirectQPBlock,
      saveRedirectQP := expected.saveRedirectQP,
      cookies := expected.cookies }
  | .error .typeError => .error .badSchemaCode
  | .error .valueError => .error (.uncaughtPython .valueError)

/-- The match test of `_check_status_code` (lines 120-122):
`isinstance(expected, int) and actual == expected`, or
`isinstance(expected, list) and actual in expected` (Python `in` is
equality-based membership, so only `int` elements can match). -/
def statusMatches (expected : PyVal) (actual : Int) : Bool :=
  match expected with
  | .int c => actual = c
  | .list cs =>
    cs.any fun v =>
      match v with
      | .int m => m = actual
      | _ => false
  | _ => false

/-- `RestResponse._check_status_code` (lines 117-138) as the list of errors
it appends: empty on a match; on a mismatch one error, embedding
`json.dumps(body)` exactly when the actual code is in 400..499. -/
def check_status_code (expected : PyVal) (actual : Int) (body : Option PyVal) :
    List VerifyError :=
  if statusMatches expected actual then []
  else if 400 ≤ actual ∧ actual < 500 then
    [.statusMismatch actual expected (some (body.getD .null))]
  else
    [.statusMismatch actual expected none]

/-- `RestResponse._get_redirect_query_params` (lines 97-115): the parsed
query parameters of the `location` header (requests header lookup is
case-insensitive), plus the error recorded when the header is absent but a
`save.redirect_query_params` block exists. -/
def get_redirect_query_params (C : VerifyCollabs) (exp : ExpectedResponse)
    (resp : HttpResponse) : Dict String × List VerifyError :=
  match dictLookup (lowerKeys resp.headers) "location" with
  | none =>
    match exp.saveRedirectQP with
    | some wanted => ([], [.missingRedirectUrl wanted])
    | none => ([], [])
  | some redirect_url => (C.parseLocationQP redirect_url, [])

/-- `expected_block.pop("$ext", None)`: the block with the `$ext` key
removed (the pop happens whether or not the value is truthy). -/
def extPopped : Option PyVal → Option PyVal
  | some (.dict d) => some (.dict (d.filter (fun p => p.1 ≠ "$ext")))
  | b => b

/-- Whether `_validate_block` raises `MisplacedExtBlockException`: the
expected block is a mapping whose `$ext` value is truthy. -/
def hasMisplacedExt : Option PyVal → Bool
  | some (.dict d) =>
    match dictLookup d "$ext" with
    | some v => pyTruthy v
    | none => false
  | _ => false

/-- `\x7bi.lower(): j for i, j in v.items()\x7d` on a `PyVal` mapping
(identity on anything else). -/
def pyLowerKeys : PyVal → PyVal
  | .dict d => .dict (dictOfList (d.map (fun p => (p.1.toLower, p.2))))
  | v => v

/-- The errors the structural match primitive contributes for one block in
`_validate_block` (lines 240-250): both sides are key-lowercased for the
headers block (when an expected headers block exists), and the `$ext` key
has been popped from the expected block. -/
def blockMatchErrs (C : VerifyCollabs) (blockname : String)
    (expected_block : Option PyVal) (block : PyVal) : List VerifyError :=
  let expected2 := extPopped expected_block
  if blockname = "headers" ∧ expected2.isSome then
    C.matchPrim blockname (expected2.map pyLowerKeys) (pyLowerKeys block)
  else
    C.matchPrim blockname expected2 block

/-- `RestResponse._validate_block` (lines 222-250): raise on a misplaced
truthy `$ext` key, otherwise hand the block to the structural match
primitive and collect its errors. -/
def validate_block (C : VerifyCollabs) (blockname : String)
    (expected_block : Option PyVal) (block : PyVal) :
    Except TavernError (List VerifyError) :=
  if hasMisplacedExt expected_block then .error (.misplacedExt blockname)
  else .ok (blockMatchErrs C blockname expected_block block)

/-- A string-valued dictionary as the `PyVal` mapping the match primitive
and the save blocks receive. -/
def pyOfDict (d : Dict String) : PyVal :=
  .dict (d.map (fun p => (p.1, .str p.2)))

/-- The cookie presence errors of `verify` (lines 210-212). -/
def missingCookieErrs (exp : ExpectedResponse) (resp : HttpResponse) :
    List VerifyError :=
  (exp.cookies.filter (fun c => !resp.cookies.contains c)).map
    VerifyError.missingResponseCookie

/-- `RestResponse.verify(response)` (lines 140-220).  Error accumulation is
the list `self.errors` in source order: the redirect-header lookup runs
once inside `_verbose_log_response` (line 90) and once at line 173, each
time recording its save-without-redirect error; then the status check, the
three block validations (each of which can instead raise
`MisplacedExtBlockException`), the external validator functions, the save
blocks and the cookie presence checks.  A non-empty list is raised as one
`TestFailError` only after every check has run; otherwise the merged save
values are returned.  `attach_yaml` and `call_hook` are observation-only
collaborators with no effect on the result. -/
def verify (C : VerifyCollabs) (exp : ExpectedResponse) (resp : HttpResponse) :
    Except TavernError (Dict PyVal) :=
  let verboseErrs := (get_redirect_query_params C exp resp).2
  let body := resp.bodyJson
  let redirect_query_params := (get_redirect_query_params C exp resp).1
  let rqpErrs := (get_redirect_query_params C exp resp).2
  let statusErrs := check_status_code exp.status_code resp.status_code body
  match validate_block C "json" exp.jsonBlock (body.getD .null) with
  | .error e => .error e
  | .ok jsonErrs =>
  match validate_block C "headers" exp.headersBlock (pyOfDict resp.headers) with
  | .error e => .error e
  | .ok headerErrs =>
  match validate_block C "redirect_query_params" exp.redirectQPBlock
      (pyOfDict redirect_query_params) with
  | .error e => .error e
  | .ok rqpBlockErrs =>
  let saved0 := dictUpdate [] (C.saveFromBlock "json" (body.getD .null))
  let saved1 := dictUpdate saved0 (C.saveFromBlock "headers" (pyOfDict resp.headers))
  let saved2 := dictUpdate saved1
    (C.saveFromBlock "redirect_query_params" (pyOfDict redirect_query_params))
  let saved := dictUpdate saved2 C.saveFromExt
  let cookieErrs := missingCookieErrs exp resp
  let errors := verboseErrs ++ rqpErrs ++ statusErrs ++ jsonErrs ++ headerErrs ++
    rqpBlockErrs ++ C.validateFnErrs ++ C.saveErrs ++ cookieErrs
  if errors.isEmpty then .ok saved else .error (.testFail errors)

/-- The complete accumulated error list of a `verify` run on which no
block raised `MisplacedExtBlockException`, in source order. -/
def verifyErrors (C : VerifyCollabs) (exp : ExpectedResponse) (resp : HttpResponse) :
    List VerifyError :=
  (get_redirect_query_params C exp resp).2 ++
  (get_redirect_query_params C exp resp).2 ++
  check_status_code exp.status_code resp.status_code resp.bodyJson ++
  blockMatchErrs C "json" exp.jsonBlock (resp.bodyJson.getD .null) ++
  blockMatchErrs C "headers" exp.headersBlock (pyOfDict resp.headers) ++
  blockMatchErrs C "redirect_query_params" exp.redirectQPBlock
    (pyOfDict (get_redirect_query_params C exp resp).1) ++
  C.validateFnErrs ++ C.saveErrs ++ missingCookieErrs exp resp

/-! ## Concrete instances shared by witnesses and counterexamples -/

/-- A file-spec guess oracle that never infers anything. -/
def guess0 : String → FileSpecGuess := fun _ => .plain

/-- A test configuration with no global follow_redirects setting. -/
def cfg0 : TestConfig := {}

/-- A session jar holding the single cookie `a=b`. -/
def jarC1 : CookieJar := [("a", "b")]

/-- A stage spec sending the session cookie `a` verbatim. -/
def rspecC1 : RSpec := { method := some "GET", url := some "u", cookies := some [.name "a"] }

/-- A transport whose `session.request` call raises without touching the
session jar. -/
def transportFail : Transport := fun _ j => (j, none)

/-! ## Theorems -/

/-- C5: for every stage spec and configuration, the resolved
`allow_redirects` flag is the per-stage `follow_redirects` directive when
present, otherwise the global configuration value when set, otherwise
`false` — covering all presence combinations. -/
theorem c5_redirect_precedence (rspec : RSpec) (cfg : TestConfig) :
    (check_allow_redirects rspec cfg).2 =
      rspec.follow_redirects.getD (cfg.follow_redirects.getD false) := by
  cases hf : rspec.follow_redirects <;> cases hg : cfg.follow_redirects <;>
    simp [check_allow_redirects, hf, hg]

/-- C7: cookie negotiation returns the send-all sentinel (`none`) for an
absent directive, the send-no-cookies sentinel (empty mapping) for an empty
directive, and for `["session_id", ("csrf": "abc")]` against a session
holding only `session_id=xyz` it returns both cookies without error. -/
theorem c7_cookie_sentinels_and_merge :
    (∀ jar : CookieJar, read_expected_cookies jar none = .ok none) ∧
    (∀ jar : CookieJar, read_expected_cookies jar (some []) = .ok (some [])) ∧
    read_expected_cookies [("session_id", "xyz")]
        (some [.name "session_id", .override [("csrf", "abc")]]) =
      .ok (some [("session_id", "xyz"), ("csrf", "abc")]) := by
  refine ⟨fun jar => rfl, fun jar => rfl, ?_⟩
  rfl

/-- C1 counterexample: the session jar `a=b`, a stage whose request args
carry a cookies substitution, and a raising `session.request` call: after
the stage the session jar is the substituted empty jar, not the saved one —
the restoration is skipped on the exception path. -/
theorem c1_counterexample :
    (runStage guess0 id cfg0 transportFail jarC1 rspecC1).1 = [] ∧
    (runStage guess0 id cfg0 transportFail jarC1 rspecC1).1 ≠ jarC1 := by
  refine ⟨rfl, ?_⟩
  decide

/-- C9 counterexample: a stage spec without a `method` key: request
assembly writes `method: GET` into the spec dictionary itself, so the spec
is not left equal to its original value. -/
theorem c9_counterexample :
    (get_request_args guess0 cfg0 { url := some "u" }).1.method = some "GET" ∧
    (RSpec.method { url := some "u" }) = none ∧
    (get_request_args guess0 cfg0 { url := some "u" }).1 ≠ { url := some "u" } := by
  refine ⟨rfl, rfl, ?_⟩
  decide

/-- C3 counterexample: the directive
`[("a": "1", "b": "2"), ("a": "3")]` has the key `a` in both override
maps — a duplicate in their union — yet negotiation does not raise
`DuplicateCookieError`: the merged overrides count (2) equals the map count
(2), so the merge silently succeeds with the last value of `a`. -/
theorem c3_counterexample :
    read_expected_cookies []
        (some [.override [("a", "1"), ("b", "2")], .override [("a", "3")]]) =
      .ok (some [("a", "3"), ("b", "2")]) ∧
    "a" ∈ dictKeys [("a", "1"), ("b", "2")] ∧ "a" ∈ dictKeys [("a", "3")] := by
  refine ⟨rfl, ?_, ?_⟩ <;> decide

/-- C1 amended: when a cookies substitution is active, the saved session
jar is restored on normal completion of the call; when the call raises, the
restoration is skipped and the session is left with whatever jar the failed
call left behind, starting from the substituted empty jar. -/
theorem c1_amended (transport : Transport) (stage : PreparedStage) (jar : CookieJar)
    (hc : stage.args.cookies.isSome = true) :
    (∀ jar2 r, transport stage [] = (jar2, some r) →
        runPrepared transport stage jar = (jar, some r)) ∧
    (∀ jar2, transport stage [] = (jar2, none) →
        runPrepared transport stage jar = (jar2, none)) := by
  constructor
  · intro jar2 r h
    simp [runPrepared, set_cookies_for_request, hc, h]
  · intro jar2 h
    simp [runPrepared, set_cookies_for_request, hc, h]

/-- A response for witness instances. -/
def respOk : HttpResponse := { status_code := 200, headers := [] }

/-- A prepared stage with an active (empty) cookie substitution. -/
def stageW : PreparedStage :=
  { args := { method := "GET", url := "u", headers := [], cookies := some [] },
    file_body := none }

/-- A transport that succeeds and deposits a new session cookie. -/
def transportOk : Transport := fun _ j => (j ++ [("sess", "1")], some respOk)

/-- Witness for `c1_amended`: a successful call leaves the original jar. -/
theorem c1_amended_witness :
    runPrepared transportOk stageW jarC1 = (jarC1, some respOk) :=
  (c1_amended transportOk stageW jarC1 rfl).1 [("sess", "1")] respOk rfl

/-- Lines 56-61 written out: the defaults mutation sets `method` and
`headers` to their defaulted values and touches nothing else. -/
theorem defaultMethodHeaders_spec (r : RSpec) :
    defaultMethodHeaders r =
      { r with method := some (r.method.getD "GET"), headers := some (r.headers.getD []) } := by
  obtain ⟨m, u, h, d, j, fl, fb, ck, fr, cs⟩ := r
  cases m <;> cases h <;> simp [defaultMethodHeaders]

/-- The headers value written back into the spec at lines 91-95: the
lowercased headers with the content-type entry removed. -/
def rewrittenHeaders (r1 : RSpec) : Dict String :=
  (lowerKeys (r1.headers.getD [])).filter (fun p => p.1.toLower ≠ "content-type")

/-- The spec dictionary `get_request_args` hands back: the defaulted spec,
with the headers additionally rewritten (lowercased, content-type dropped)
when multipart files are combined with a content-type header — unless the
body mutual-exclusivity check raised first. -/
theorem get_request_args_fst_eq (g : String → FileSpecGuess) (cfg : TestConfig)
    (r : RSpec) :
    (get_request_args g cfg r).1 =
      (if (presentContentKeys (defaultMethodHeaders r)).length > 1 ∧
          presentContentKeys (defaultMethodHeaders r) ≠ ["data", "files"] then
        defaultMethodHeaders r
      else if (defaultMethodHeaders r).files ∧
          optTruthy (dictLookup
            (lowerKeys ((defaultMethodHeaders r).headers.getD [])) "content-type") then
        { defaultMethodHeaders r with headers := some (rewrittenHeaders (defaultMethodHeaders r)) }
      else defaultMethodHeaders r) := by
  simp only [get_request_args, rewrittenHeaders]
  split_ifs <;> first | rfl | (split <;> rfl)

/-- The spec mutations of `get_request_args` do not touch the `cookies`
directive. -/
theorem get_request_args_fst_cookies (g : String → FileSpecGuess) (cfg : TestConfig)
    (r : RSpec) : (get_request_args g cfg r).1.cookies = r.cookies := by
  rw [get_request_args_fst_eq, defaultMethodHeaders_spec]
  split_ifs <;> rfl

/-- The spec mutations of `get_request_args` do not touch the
`clear_session_cookies` flag. -/
theorem get_request_args_fst_clear (g : String → FileSpecGuess) (cfg : TestConfig)
    (r : RSpec) :
    (get_request_args g cfg r).1.clear_session_cookies = r.clear_session_cookies := by
  rw [get_request_args_fst_eq, defaultMethodHeaders_spec]
  split_ifs <;> rfl

/-- `_check_allow_redirects` pops the `follow_redirects` key from the spec
and changes nothing else. -/
theorem check_allow_redirects_fst (r : RSpec) (cfg : TestConfig) :
    (check_allow_redirects r cfg).1 = { r with follow_redirects := none } := by
  cases hf : r.follow_redirects <;> simp [check_allow_redirects, hf]

/-- C9 amended: request assembly mutates the stage spec in place rather
than leaving it untouched: the `method` key is set to its default `GET`
when absent, a `headers` key is always present afterwards (inserted empty
when absent, and rewritten when multipart files are combined with a
content-type header), `_check_allow_redirects` removes the
`follow_redirects` key, and `RestRequest.__init__` removes the
`clear_session_cookies` key; all other keys are left unchanged. -/
theorem c9_amended (g : String → FileSpecGuess) (cfg : TestConfig) (r : RSpec) :
    ((get_request_args g cfg r).1.method = some (r.method.getD "GET")) ∧
    ((get_request_args g cfg r).1.headers.isSome = true) ∧
    ((get_request_args g cfg r).1.url = r.url) ∧
    ((get_request_args g cfg r).1.data = r.data) ∧
    ((get_request_args g cfg r).1.json = r.json) ∧
    ((get_request_args g cfg r).1.files = r.files) ∧
    ((get_request_args g cfg r).1.file_body = r.file_body) ∧
    ((get_request_args g cfg r).1.cookies = r.cookies) ∧
    ((get_request_args g cfg r).1.follow_redirects = r.follow_redirects) ∧
    (∀ cfg2 : TestConfig,
      (check_allow_redirects r cfg2).1 = { r with follow_redirects := none }) ∧
    (∀ (clearSess : CookieJar → CookieJar) (jar : CookieJar),
      ((restRequest_init g clearSess cfg jar r).1.2).clear_session_cookies = false) := by
  refine ⟨?_, ?_, ?_, ?_, ?_, ?_, ?_,
    get_request_args_fst_cookies g cfg r, ?_,
    fun cfg2 => check_allow_redirects_fst r cfg2, ?_⟩
  all_goals try (rw [get_request_args_fst_eq, defaultMethodHeaders_spec] ; split_ifs <;> rfl)
  intro clearSess jar
  simp only [restRequest_init]
  split
  next r2 e heq =>
    have h2 := get_request_args_fst_clear g cfg { r with clear_session_cookies := false }
    rw [heq] at h2
    simpa using h2
  next r2 args0 heq =>
    have h2 := get_request_args_fst_clear g cfg { r with clear_session_cookies := false }
    rw [heq] at h2
    simp only at h2
    split
    next e heq2 => simpa using h2
    next ec heq2 =>
      have h3 := check_allow_redirects_fst r2 cfg
      cases hcar : check_allow_redirects r2 cfg with
      | mk r3 allow =>
        rw [hcar] at h3
        simp only at h3
        subst h3
        simpa using h2

/-- Referencing a session cookie that does not exist makes negotiation
raise `MissingCookieError` (the missing check precedes every duplicate
check, so it fires regardless of the rest of the directive). -/
theorem read_expected_cookies_missing (jar : CookieJar) (items : List CookieItem)
    (n : String) (hmem : CookieItem.name n ∈ items)
    (hnone : dictLookup jar n = none) :
    read_expected_cookies jar (some items) =
      .error (.missingCookie (verbatimNames items) jar) := by
  have hne : items.isEmpty = false := by
    cases items with
    | nil => cases hmem
    | cons a t => rfl
  have hvn : n ∈ verbatimNames items := by
    rw [verbatimNames, List.mem_filterMap]
    exact ⟨.name n, hmem, rfl⟩
  have hany : (verbatimNames items).any (fun x => !(dictLookup jar x).isSome) = true := by
    rw [List.any_eq_true]
    exact ⟨n, hvn, by simp [hnone]⟩
  unfold read_expected_cookies
  dsimp only
  split_ifs <;> simp_all

/-- Spec-spine equality used to discharge the popped
`clear_session_cookies` key when it was already absent. -/
theorem rspec_clear_eta (r : RSpec) (h : r.clear_session_cookies = false) :
    ({ r with clear_session_cookies := false } : RSpec) = r := by
  cases r
  simp_all

/-- C8: a non-empty cookies directive naming a verbatim cookie absent from
the session makes the whole stage fail with `MissingCookieError` during
request construction, for every transport — the network call is never
consulted and the session jar is untouched. -/
theorem c8_missing_cookie_before_network
    (g : String → FileSpecGuess) (clearSess : CookieJar → CookieJar)
    (cfg : TestConfig) (jar : CookieJar) (rspec : RSpec)
    (items : List CookieItem) (n : String)
    (h0 : rspec.clear_session_cookies = false)
    (h1 : rspec.cookies = some items)
    (h2 : CookieItem.name n ∈ items)
    (h3 : dictLookup jar n = none)
    (h4 : (get_request_args g cfg rspec).2.isOk = true) :
    ∀ transport : Transport,
      runStage g clearSess cfg transport jar rspec =
        (jar, .error (.missingCookie (verbatimNames items) jar)) := by
  intro transport
  simp only [runStage, restRequest_init, rspec_clear_eta rspec h0, h0, if_false]
  cases hg : get_request_args g cfg rspec with
  | mk r2 res =>
    cases res with
    | error e =>
      rw [hg] at h4
      simp [Except.isOk, Except.toBool] at h4
    | ok args0 =>
      have hck : r2.cookies = some items := by
        have hc := get_request_args_fst_cookies g cfg rspec
        rw [hg] at hc
        simp only at hc
        rw [hc, h1]
      simp [hck, read_expected_cookies_missing jar items n h2 h3]

/-- Witness for `c8_missing_cookie_before_network`: asking for the cookie
`sid` from an empty session fails the stage with `MissingCookieError`. -/
theorem c8_witness :
    runStage guess0 id cfg0 transportFail []
        { method := some "GET", url := some "u", cookies := some [.name "sid"] } =
      ([], .error (.missingCookie ["sid"] [])) :=
  c8_missing_cookie_before_network guess0 id cfg0 []
    { method := some "GET", url := some "u", cookies := some [.name "sid"] }
    [.name "sid"] "sid" rfl rfl (List.Mem.head _) rfl rfl transportFail

/-- A key absent from a dictionary looks up to `none`. -/
theorem dictLookup_eq_none_of_not_mem (d : Dict α) (k : String)
    (h : k ∉ dictKeys d) : dictLookup d k = none := by
  induction d with
  | nil => rfl
  | cons p t ih =>
    simp only [dictKeys, List.map_cons, List.mem_cons, not_or] at h
    rw [dictLookup, if_neg (fun hh => h.1 hh.symm)]
    exact ih h.2

/-- Inserting a fresh key appends it. -/
theorem dictInsert_of_fresh (d : Dict α) (k : String) (v : α)
    (h : dictLookup d k = none) : dictInsert d k v = d ++ [(k, v)] := by
  simp [dictInsert, h]

/-- Folding Python dict insertion over pairs whose keys are all fresh and
pairwise distinct just appends them, in order. -/
theorem dictOfList_go_nodup (l : List (String × α)) (d : Dict α)
    (h : (dictKeys d ++ l.map Prod.fst).Nodup) :
    l.foldl (fun d p => dictInsert d p.1 p.2) d = d ++ l := by
  induction l generalizing d with
  | nil => simp
  | cons p t ih =>
    obtain ⟨k0, v0⟩ := p
    rw [List.map_cons, List.append_cons] at h
    have h2 := h
    rw [List.nodup_append] at h2
    have hfresh : dictLookup d k0 = none := by
      apply dictLookup_eq_none_of_not_mem
      intro hmem
      have h3 := h2.1
      rw [List.nodup_append] at h3
      exact h3.2.2 hmem (by simp)
    rw [List.foldl_cons]
    dsimp only
    rw [dictInsert_of_fresh d k0 v0 hfresh]
    have hkeys : dictKeys (d ++ [(k0, v0)]) = dictKeys d ++ [k0] := by
      simp [dictKeys]
    have hih := ih (d ++ [(k0, v0)]) (by rw [hkeys]; exact h)
    rw [hih]
    simp

/-- Building a dict from pairs with pairwise-distinct keys is the identity. -/
theorem dictOfList_nodup (l : List (String × α)) (h : (l.map Prod.fst).Nodup) :
    dictOfList l = l := by
  have := dictOfList_go_nodup l [] (by simpa [dictKeys] using h)
  simpa [dictOfList] using this

/-- A list of singleton lists flattens to one element per list. -/
theorem flatten_singleton_length (maps : List (Dict String))
    (h : ∀ m ∈ maps, ∃ k v, m = [(k, v)]) :
    maps.flatten.length = maps.length := by
  induction maps with
  | nil => rfl
  | cons m t ih =>
    obtain ⟨k, v, hm⟩ := h m (by simp)
    rw [List.flatten_cons, List.length_append, ih (fun m2 hm2 => h m2 (by simp [hm2])), hm]
    simp [Nat.add_comm]

/-- Whether cookie negotiation raised either `DuplicateCookieError`. -/
def isDuplicateCookieError : Except TavernError (Option (Dict String)) → Bool
  | .error .duplicateCookieOverride => true
  | .error (.duplicateCookieReuse _ _) => true
  | _ => false

/-- C3 amended: with every verbatim-referenced cookie present in the
session and a non-empty directive, negotiation raises
`DuplicateCookieError` exactly when the number of override maps differs
from the number of distinct keys in their merged union, or when a verbatim
name also appears as an override key.  In particular, when every override
map has exactly one key, the override keys are pairwise distinct and none
collides with a verbatim reference, negotiation succeeds and merges the
override maps over the session values.  (The duplicate-key condition of the
original claim coincides with the count condition only when every override
map is a single-key map: a lone two-key map raises, while a duplicate split
across maps of balancing sizes is merged silently.) -/
theorem c3_amended (jar : CookieJar) (items : List CookieItem)
    (hne : items ≠ [])
    (hpresent : ∀ n ∈ verbatimNames items, (dictLookup jar n).isSome = true) :
    (isDuplicateCookieError (read_expected_cookies jar (some items)) = true ↔
      ((overrideMaps items).length ≠ (mergedOverrides items).length ∨
        ∃ n ∈ verbatimNames items, (dictLookup (mergedOverrides items) n).isSome = true)) ∧
    ((∀ m ∈ overrideMaps items, ∃ k v, m = [(k, v)]) →
      ((overrideMaps items).flatten.map Prod.fst).Nodup →
      (∀ n ∈ verbatimNames items, dictLookup (mergedOverrides items) n = none) →
      read_expected_cookies jar (some items) =
        .ok (some (deep_dict_merge
          (dictOfList ((verbatimNames items).map fun c => (c, (dictLookup jar c).getD "")))
          (mergedOverrides items)))) := by
  have hempty : items.isEmpty = false := by
    cases items with
    | nil => exact absurd rfl hne
    | cons a t => rfl
  have hanyF : ((verbatimNames items).any fun x => !(dictLookup jar x).isSome) = false := by
    rw [List.any_eq_false]
    intro x hx
    rw [hpresent x hx]
    simp
  constructor
  · unfold read_expected_cookies
    dsimp only
    simp only [mergedOverrides]
    split_ifs with hEmp hMiss hlen hover
    · rw [hempty] at hEmp
      cases hEmp
    · rw [hanyF] at hMiss
      cases hMiss
    · exact iff_of_true rfl (Or.inl hlen)
    · refine iff_of_true rfl (Or.inr ?_)
      rw [ne_eq, List.filter_eq_nil_iff] at hover
      push_neg at hover
      obtain ⟨a, ha, hpa⟩ := hover
      exact ⟨a, ha, by simpa using hpa⟩
    · refine iff_of_false (by simp [isDuplicateCookieError]) ?_
      rintro (hcase | ⟨a, ha, hpa⟩)
      · exact hcase (not_ne_iff.mp hlen)
      · rw [ne_eq, not_not] at hover
        have h5 := List.filter_eq_nil_iff.mp hover a ha
        exact h5 hpa
  · intro hsingle hnodup hnocoll
    have hfe : dictOfList (overrideMaps items).flatten = (overrideMaps items).flatten :=
      dictOfList_nodup _ hnodup
    have hlenEq : (overrideMaps items).length =
        (dictOfList (overrideMaps items).flatten).length := by
      rw [hfe, flatten_singleton_length _ hsingle]
    have hfilter : (verbatimNames items).filter
        (fun n => (dictLookup (dictOfList (overrideMaps items).flatten) n).isSome) = [] := by
      rw [List.filter_eq_nil_iff]
      intro a ha
      have hn := hnocoll a ha
      simp only [mergedOverrides] at hn
      simp [hn]
    unfold read_expected_cookies
    dsimp only
    split_ifs with hEmp hMiss hlen hover
    · rw [hempty] at hEmp
      cases hEmp
    · rw [hanyF] at hMiss
      cases hMiss
    · exact absurd hlenEq hlen
    · rw [hfilter] at hover
      exact absurd rfl hover
    · simp [mergedOverrides]

/-- Witness for `c3_amended` at the directive `[("a": "1")]` against an
empty session: one single-key override map, no verbatim references. -/
theorem c3_amended_witness :
    (isDuplicateCookieError (read_expected_cookies []
        (some [.override [("a", "1")]])) = true ↔
      ((overrideMaps [.override [("a", "1")]]).length ≠
          (mergedOverrides [.override [("a", "1")]]).length ∨
        ∃ n ∈ verbatimNames [.override [("a", "1")]],
          (dictLookup (mergedOverrides [.override [("a", "1")]]) n).isSome = true)) ∧
    ((∀ m ∈ overrideMaps [.override [("a", "1")]], ∃ k v, m = [(k, v)]) →
      ((overrideMaps [.override [("a", "1")]]).flatten.map Prod.fst).Nodup →
      (∀ n ∈ verbatimNames [.override [("a", "1")]],
        dictLookup (mergedOverrides [.override [("a", "1")]]) n = none) →
      read_expected_cookies [] (some [.override [("a", "1")]]) =
        .ok (some (deep_dict_merge
          (dictOfList ((verbatimNames [.override [("a", "1")]]).map
            fun c => (c, (dictLookup [] c).getD "")))
          (mergedOverrides [.override [("a", "1")]])))) :=
  c3_amended [] [.override [("a", "1")]] (by simp)
    (fun n hn => by simp [verbatimNames] at hn)

/-- The body-key defaults of lines 56-61 do not change which body keys are
present. -/
theorem presentContentKeys_default (r : RSpec) :
    presentContentKeys (defaultMethodHeaders r) = presentContentKeys r := by
  rw [defaultMethodHeaders_spec]
  rfl

/-- When more than one body key is present and the combination is not
exactly data+files, `get_request_args` raises the mutual-exclusivity
`BadSchemaError` naming the present body keys. -/
theorem get_request_args_excl_pos (g : String → FileSpecGuess) (cfg : TestConfig)
    (r : RSpec)
    (h : (presentContentKeys r).length > 1 ∧ presentContentKeys r ≠ ["data", "files"]) :
    (get_request_args g cfg r).2 = .error (.badSchemaBody (presentContentKeys r)) := by
  have hp := presentContentKeys_default r
  simp only [get_request_args]
  split_ifs with h1
  · rw [hp]
  all_goals rw [hp] at h1; exact absurd h h1

/-- Otherwise `get_request_args` never raises the mutual-exclusivity
error. -/
theorem get_request_args_excl_neg (g : String → FileSpecGuess) (cfg : TestConfig)
    (r : RSpec)
    (h : ¬((presentContentKeys r).length > 1 ∧ presentContentKeys r ≠ ["data", "files"])) :
    ∀ l, (get_request_args g cfg r).2 ≠ .error (.badSchemaBody l) := by
  intro l
  have hp := presentContentKeys_default r
  simp only [get_request_args]
  split_ifs with h1
  · rw [hp] at h1
    exact absurd h1 h
  all_goals try simp
  all_goals split <;> simp

/-- C4: request assembly fails with the mutual-exclusivity `BadSchemaError`
exactly when more than one of the body keys data/json/files/file_body is
present and the present set is not exactly data+files; the raised error
names exactly the present body keys, in the fixed data, json, files,
file_body order. -/
theorem c4_body_exclusivity (g : String → FileSpecGuess) (cfg : TestConfig) (r : RSpec) :
    ((∃ l, (get_request_args g cfg r).2 = .error (.badSchemaBody l)) ↔
      ((presentContentKeys r).length > 1 ∧ presentContentKeys r ≠ ["data", "files"])) ∧
    (∀ l, (get_request_args g cfg r).2 = .error (.badSchemaBody l) →
      l = presentContentKeys r ∧
      ∀ k, k ∈ l ↔ (k ∈ content_keys ∧ hasContentKey r k = true)) := by
  have hiff : (∃ l, (get_request_args g cfg r).2 = .error (.badSchemaBody l)) ↔
      ((presentContentKeys r).length > 1 ∧ presentContentKeys r ≠ ["data", "files"]) := by
    constructor
    · rintro ⟨l, hl⟩
      by_contra hc
      exact get_request_args_excl_neg g cfg r hc l hl
    · intro hc
      exact ⟨presentContentKeys r, get_request_args_excl_pos g cfg r hc⟩
  refine ⟨hiff, fun l hl => ?_⟩
  have hc := hiff.mp ⟨l, hl⟩
  have hpos := get_request_args_excl_pos g cfg r hc
  rw [hl] at hpos
  have hle : l = presentContentKeys r := by
    simpa using hpos
  refine ⟨hle, fun k => ?_⟩
  rw [hle, presentContentKeys, List.mem_filter]

/-- Witness for `c4_body_exclusivity`: a spec with both data and json
raises the error naming both keys. -/
theorem c4_witness :
    ∃ l, (get_request_args guess0 cfg0
        { url := some "u", data := true, json := true }).2 =
      .error (.badSchemaBody l) ∧
      ∀ k, k ∈ l ↔ (k ∈ content_keys ∧
        hasContentKey { url := some "u", data := true, json := true } k = true) := by
  obtain ⟨l, hl⟩ := (c4_body_exclusivity guess0 cfg0
    { url := some "u", data := true, json := true }).1.mpr (by decide)
  exact ⟨l, hl, ((c4_body_exclusivity guess0 cfg0
    { url := some "u", data := true, json := true }).2 l hl).2⟩

/-- The status match test, spelled out: the actual code equals the expected
integer scalar, or the expected value is a list containing it. -/
theorem statusMatches_iff (e : PyVal) (actual : Int) :
    statusMatches e actual = true ↔
      ((∃ c, e = .int c ∧ actual = c) ∨ (∃ cs, e = .list cs ∧ PyVal.int actual ∈ cs)) := by
  cases e with
  | list cs =>
    simp only [statusMatches]
    rw [List.any_eq_true]
    constructor
    · rintro ⟨v, hv, hpv⟩
      cases v with
      | int m =>
        right
        refine ⟨cs, rfl, ?_⟩
        have hm : m = actual := by simpa using hpv
        exact hm ▸ hv
      | null => simp at hpv
      | str s => simp at hpv
      | list xs => simp at hpv
      | dict d => simp at hpv
    · rintro (⟨c, hc, _⟩ | ⟨cs2, hcs, hmem⟩)
      · simp at hc
      · injection hcs with h
        subst h
        exact ⟨.int actual, hmem, by simp⟩
  | int c => simp [statusMatches, eq_comm]
  | null => simp [statusMatches]
  | str s => simp [statusMatches]
  | dict d => simp [statusMatches]

/-- The status check records no error exactly when the match test holds. -/
theorem check_status_code_eq_nil_iff (e : PyVal) (actual : Int) (body : Option PyVal) :
    check_status_code e actual body = [] ↔ statusMatches e actual = true := by
  unfold check_status_code
  split_ifs <;> simp_all

/-- C6: with the expected status defaulting to 200 when unspecified, the
status check records no error iff the actual code equals the expected
integer scalar or is a member of the expected list; on a mismatch it
records exactly one error, which embeds the serialized response body
exactly when the actual code is in 400..499 and omits it otherwise. -/
theorem c6_status_check (sc : Option PyVal) (actual : Int) (body : Option PyVal) :
    mergedStatusCode none = .int 200 ∧
    (check_status_code (mergedStatusCode sc) actual body = [] ↔
      ((∃ c, mergedStatusCode sc = .int c ∧ actual = c) ∨
        (∃ cs, mergedStatusCode sc = .list cs ∧ PyVal.int actual ∈ cs))) ∧
    (check_status_code (mergedStatusCode sc) actual body ≠ [] →
      check_status_code (mergedStatusCode sc) actual body =
        [.statusMismatch actual (mergedStatusCode sc)
          (if 400 ≤ actual ∧ actual < 500 then some (body.getD .null) else none)]) := by
  refine ⟨rfl, (check_status_code_eq_nil_iff _ actual body).trans (statusMatches_iff _ actual), ?_⟩
  intro hne
  have hm : statusMatches (mergedStatusCode sc) actual = false := by
    by_contra hmm
    rw [Bool.not_eq_false] at hmm
    exact hne (by simp [check_status_code, hmm])
  by_cases h45 : 400 ≤ actual ∧ actual < 500
  · simp [check_status_code, hm, h45]
  · simp [check_status_code, hm, h45]

/-- Witness for `c6_status_check`: actual 404 against expected 200 with a
parsed body records one error that embeds the body. -/
theorem c6_witness :
    check_status_code (mergedStatusCode (some (.int 200))) 404 (some (.dict [])) =
      [.statusMismatch 404 (mergedStatusCode (some (.int 200))) (some (.dict []))] := by
  have hne : check_status_code (mergedStatusCode (some (.int 200))) 404
      (some (.dict [])) ≠ [] := List.cons_ne_nil _ _
  have h := (c6_status_check (some (.int 200)) 404 (some (.dict []))).2.2 hne
  rw [if_pos (by norm_num : (400 : Int) ≤ 404 ∧ (404 : Int) < 500)] at h
  exact h

/-- A list of integer expected codes always converts cleanly. -/
theorem check_codes_list_ints (ns : List Int) :
    check_codes_list (ns.map PyVal.int) = .ok () := by
  induction ns with
  | nil => rfl
  | cons a t ih => simp [check_codes_list, pyIntConv, ih]

/-- C10: `RestResponse` construction raises `BadSchemaError` exactly when
converting the expected status code (or one of its list elements, in
order) to an integer raises a `TypeError`; any integer expected code —
recognized HTTP status or not — constructs successfully, the
unrecognized-code path being a warning only. -/
theorem c10_init_code_validation (e : ExpectedIn) :
    (restResponse_init e = .error .badSchemaCode ↔
      check_code_loop (mergedStatusCode e.status_code) = .error .typeError) ∧
    (∀ n : Int, e.status_code = some (.int n) → ∃ st, restResponse_init e = .ok st) ∧
    (∀ ns : List Int, e.status_code = some (.list (ns.map PyVal.int)) →
      ∃ st, restResponse_init e = .ok st) := by
  refine ⟨?_, ?_, ?_⟩
  · cases hc : check_code_loop (mergedStatusCode e.status_code) with
    | ok u => simp [restResponse_init, hc]
    | error pe => cases pe <;> simp [restResponse_init, hc]
  · intro n hn
    refine ⟨ExpectedResponse.mk (.int n) e.jsonBlock e.headersBlock e.redirectQPBlock
      e.saveRedirectQP e.cookies, ?_⟩
    simp [restResponse_init, mergedStatusCode, hn, check_code_loop, pyIntConv]
  · intro ns hn
    refine ⟨ExpectedResponse.mk (.list (ns.map PyVal.int)) e.jsonBlock e.headersBlock
      e.redirectQPBlock e.saveRedirectQP e.cookies, ?_⟩
    simp [restResponse_init, mergedStatusCode, hn, check_code_loop, check_codes_list_ints]

/-- Witness for `c10_init_code_validation`: an expected `status_code: None`
raises `BadSchemaError` (TypeError from `int(None)`), while the
unrecognized integer code 999 constructs successfully. -/
theorem c10_witness :
    restResponse_init { status_code := some .null } = .error .badSchemaCode ∧
    (∃ st, restResponse_init { status_code := some (.int 999) } = .ok st) :=
  ⟨(c10_init_code_validation { status_code := some .null }).1.mpr rfl,
    (c10_init_code_validation { status_code := some (.int 999) }).2.1 999 rfl⟩

/-- The merged save values a fully-run `verify` would return (lines
195-207), body < headers < redirect-params < ext in override order. -/
def savedValues (C : VerifyCollabs) (exp : ExpectedResponse) (resp : HttpResponse) :
    Dict PyVal :=
  dictUpdate
    (dictUpdate
      (dictUpdate (dictUpdate [] (C.saveFromBlock "json" (resp.bodyJson.getD .null)))
        (C.saveFromBlock "headers" (pyOfDict resp.headers)))
      (C.saveFromBlock "redirect_query_params" (pyOfDict (get_redirect_query_params C exp resp).1)))
    C.saveFromExt

/-- When none of the three expected blocks carries a misplaced truthy
`$ext` key, `verify` runs every check and either returns the merged save
values or raises the full accumulated error list. -/
theorem verify_eq_of_no_misplaced (C : VerifyCollabs) (exp : ExpectedResponse)
    (resp : HttpResponse)
    (hj : hasMisplacedExt exp.jsonBlock = false)
    (hh : hasMisplacedExt exp.headersBlock = false)
    (hr : hasMisplacedExt exp.redirectQPBlock = false) :
    verify C exp resp =
      if (verifyErrors C exp resp).isEmpty then .ok (savedValues C exp resp)
      else .error (.testFail (verifyErrors C exp resp)) := by
  simp only [verify, validate_block, hj, hh, hr, Bool.false_eq_true, if_false,
    verifyErrors, savedValues]

/-- C2: for a response that simultaneously violates the expected status,
one expected header and one expected body field (and no misplaced `$ext`
block), `verify` raises one `TestFailError` carrying the complete
accumulated error list — which contains the status error, the body-field
error and the header error together, and is assembled only after the
status, body, headers, redirect-query-params, external-validator, save and
cookie checks have all contributed, in source order. -/
theorem c2_accumulate_all_errors (C : VerifyCollabs) (exp : ExpectedResponse)
    (resp : HttpResponse) (eb eh : VerifyError)
    (hstatus : statusMatches exp.status_code resp.status_code = false)
    (hj : hasMisplacedExt exp.jsonBlock = false)
    (hh : hasMisplacedExt exp.headersBlock = false)
    (hr : hasMisplacedExt exp.redirectQPBlock = false)
    (hjson : eb ∈ blockMatchErrs C "json" exp.jsonBlock (resp.bodyJson.getD .null))
    (hhdr : eh ∈ blockMatchErrs C "headers" exp.headersBlock (pyOfDict resp.headers)) :
    verify C exp resp = .error (.testFail (verifyErrors C exp resp)) ∧
    (∃ b, VerifyError.statusMismatch resp.status_code exp.status_code b ∈
      verifyErrors C exp resp) ∧
    eb ∈ verifyErrors C exp resp ∧ eh ∈ verifyErrors C exp resp := by
  have hsc : ∃ b, check_status_code exp.status_code resp.status_code resp.bodyJson =
      [.statusMismatch resp.status_code exp.status_code b] := by
    by_cases h45 : 400 ≤ resp.status_code ∧ resp.status_code < 500
    · exact ⟨some (resp.bodyJson.getD .null), by simp [check_status_code, hstatus, h45]⟩
    · exact ⟨none, by simp [check_status_code, hstatus, h45]⟩
  obtain ⟨b, hb⟩ := hsc
  have hxS : VerifyError.statusMismatch resp.status_code exp.status_code b ∈
      check_status_code exp.status_code resp.status_code resp.bodyJson := by
    rw [hb]
    exact List.Mem.head _
  have hxE : VerifyError.statusMismatch resp.status_code exp.status_code b ∈
      verifyErrors C exp resp := by
    simp only [verifyErrors, List.mem_append]
    tauto
  have hebE : eb ∈ verifyErrors C exp resp := by
    simp only [verifyErrors, List.mem_append]
    tauto
  have hehE : eh ∈ verifyErrors C exp resp := by
    simp only [verifyErrors, List.mem_append]
    tauto
  have hisE : (verifyErrors C exp resp).isEmpty = false := by
    rw [Bool.eq_false_iff]
    intro hemp
    exact List.ne_nil_of_mem hxE (List.isEmpty_iff.mp hemp)
  refine ⟨?_, ⟨b, hxE⟩, hebE, hehE⟩
  rw [verify_eq_of_no_misplaced C exp resp hj hh hr, hisE]
  simp

/-- A concrete match primitive that reports one mismatch in the body block
and one in the headers block. -/
def collabW : VerifyCollabs :=
  { matchPrim := fun b _ _ =>
      if b = "json" then [.blockErr "json" "field"]
      else if b = "headers" then [.blockErr "headers" "hdr"]
      else [] }

/-- Expected block: status 200 with a body field and a headers block. -/
def expW : ExpectedResponse :=
  { status_code := .int 200, jsonBlock := some (.dict [("x", .int 1)]),
    headersBlock := some (.dict []) }

/-- A 404 response with no parseable body. -/
def respW : HttpResponse := { status_code := 404, headers := [] }

/-- Witness for `c2_accumulate_all_errors`: a response violating status,
one header and one body field yields one failure with all three errors. -/
theorem c2_witness :
    verify collabW expW respW = .error (.testFail (verifyErrors collabW expW respW)) ∧
    (∃ b, VerifyError.statusMismatch 404 (.int 200) b ∈ verifyErrors collabW expW respW) ∧
    VerifyError.blockErr "json" "field" ∈ verifyErrors collabW expW respW ∧
    VerifyError.blockErr "headers" "hdr" ∈ verifyErrors collabW expW respW :=
  c2_accumulate_all_errors collabW expW respW (.blockErr "json" "field")
    (.blockErr "headers" "hdr") (by decide) (by decide) (by decide) (by decide)
    (List.Mem.head _) (List.Mem.head _)

end Tavern
